import Mathlib

/-!
Shallow embedding of the `hc` admin-orchestration crate
(`crates/hc/src/lib.rs`) and of the `sys_time` host function
(`crates/holochain/src/core/ribosome/sys_time.rs`), with theorems
settling the specification claims about them.

External collaborators (the websocket layer, the process launcher, the
tokio runtime, the system clock) are modelled as explicit parameters:
an `Env` structure of oracle functions, a `TokioCtx` flag, and an
integer clock value.  Functions that can abort the process return an
`Outcome`, whose `panic` constructor is distinct from the recoverable
`err` constructor, so "returns an explicit error" and "aborts fatally"
are distinguishable propositions.
-/

namespace Hc

/-- Result of running a fallible, possibly-aborting computation:
`ok` is success, `err` a recoverable typed error (Rust `Result::Err`),
`panic` a fatal, non-retryable process abort (Rust `panic!`). -/
inductive Outcome (ε : Type) (α : Type) where
  | ok (a : α) : Outcome ε α
  | err (e : ε) : Outcome ε α
  | panic (msg : String) : Outcome ε α
  deriving Repr, DecidableEq

/-- An opaque admin request payload; its content is not interpreted by
this layer (it is produced by the caller and consumed by the conductor). -/
structure AdminRequest where
  payload : String
  deriving Repr, DecidableEq

/-- An opaque admin response payload; its content is not interpreted by
this layer. -/
structure AdminResponse where
  payload : String
  deriving Repr, DecidableEq

/-- A write or correlated-read failure on an open connection. -/
structure RequestError where
  msg : String
  deriving Repr, DecidableEq

/-- An I/O error (socket / handshake failure while connecting). -/
structure IoError where
  msg : String
  deriving Repr, DecidableEq

/-- A failure of the process launcher (spawn error or launch timeout). -/
structure LaunchError where
  msg : String
  deriving Repr, DecidableEq

/-- The sender half of the websocket control channel
(`holochain_websocket::WebsocketSender`).  The collaborator-owned
request/response exchange is modelled as an oracle: for each request,
the correlated response the conductor would return, or a failure. -/
structure WebsocketSender where
  request : AdminRequest → Except RequestError AdminResponse

/-- A spawned conductor child process handle (`tokio::process::Child`). -/
structure Child where
  pid : Nat
  deriving Repr, DecidableEq

/-- The external collaborators `lib.rs` calls into:
`ports::get_admin_api` (connect to an admin port) and
`run::run_async` (spawn the conductor binary against a setup path and
resolve its admin port). -/
structure Env where
  get_admin_api : Nat → Except IoError WebsocketSender
  run_async : String → String → Option Nat → Except LaunchError (Nat × Child)

/-- An active connection to a running conductor (`struct CmdRunner`). -/
structure CmdRunner where
  client : WebsocketSender

/-- `CmdRunner::HOLOCHAIN_PATH`. -/
def HOLOCHAIN_PATH : String := "holochain"

/-- `CmdRunner::try_new`: create a new connection for calling admin
interface commands, returning the connect failure explicitly. -/
def CmdRunner.try_new (env : Env) (port : Nat) : Except IoError CmdRunner :=
  match env.get_admin_api port with
  | .ok client => .ok { client := client }
  | .error e => .error e

/-- `CmdRunner::new`: the convenience constructor; panics
(`Result::expect`) if the admin port fails to connect. -/
def CmdRunner.new (env : Env) (port : Nat) : Outcome IoError CmdRunner :=
  match CmdRunner.try_new env port with
  | .ok r => .ok r
  | .error _ =>
      .panic "Failed to create CmdRunner because admin port failed to connect"

/-- The error type of the `anyhow::Result` composition paths: either
phase's typed failure, propagated with `?`. -/
inductive HcError where
  | launch (e : LaunchError) : HcError
  | io (e : IoError) : HcError
  deriving Repr, DecidableEq

/-- `CmdRunner::from_setup_with_bin_path`: run the conductor binary
against the setup path, then connect a `CmdRunner` to the resolved
port via `try_new`; both failures propagate as errors (`?`). -/
def CmdRunner.from_setup_with_bin_path (env : Env)
    (holochain_bin_path : String) (setup_path : String) :
    Outcome HcError (CmdRunner × Child) :=
  match env.run_async holochain_bin_path setup_path none with
  | .error e => .err (.launch e)
  | .ok conductor =>
      match CmdRunner.try_new env conductor.1 with
      | .error e => .err (.io e)
      | .ok cmd => .ok (cmd, conductor.2)

/-- `CmdRunner::from_setup`: `from_setup_with_bin_path` with the
`holochain` binary expected on the path. -/
def CmdRunner.from_setup (env : Env) (setup_path : String) :
    Outcome HcError (CmdRunner × Child) :=
  CmdRunner.from_setup_with_bin_path env HOLOCHAIN_PATH setup_path

/-- `CmdRunner::command`: make an admin request to this conductor —
forward the request to `self.client.request` and return its correlated
response, re-wrapping the failure unchanged (`Ok(response?)`). -/
def CmdRunner.command (r : CmdRunner) (cmd : AdminRequest) :
    Except RequestError AdminResponse :=
  match r.client.request cmd with
  | .ok response => .ok response
  | .error e => .error e

/-- One observable event on the wire of a single admin connection. -/
inductive WireEvent where
  | sent (r : AdminRequest) : WireEvent
  | received (r : AdminResponse) : WireEvent
  deriving Repr, DecidableEq

/-- `CmdRunner::command` instrumented with the wire trace it appends:
taking the runner by exclusive mutable reference (`&mut self`), it
writes exactly one request and, on success, awaits exactly its one
correlated response before returning. -/
def CmdRunner.commandT (r : CmdRunner) (tr : List WireEvent)
    (cmd : AdminRequest) :
    Except RequestError AdminResponse × List WireEvent :=
  match r.client.request cmd with
  | .ok response => (.ok response, tr ++ [.sent cmd, .received response])
  | .error e => (.error e, tr ++ [.sent cmd])

/-- Whether the ambient thread is inside a running tokio runtime. -/
structure TokioCtx where
  insideRuntime : Bool
  deriving Repr, DecidableEq

/-- The pending close frame built by `WebsocketSender::close(code, reason)`
(a future; nothing is transmitted until it is driven). -/
structure CloseFuture where
  code : Nat
  reason : String
  deriving Repr, DecidableEq

/-- A task handed to the tokio executor: `detached` records that its
join handle was discarded, `awaited` that the spawning code path
waited for its completion. -/
structure SpawnedTask where
  task : CloseFuture
  detached : Bool
  awaited : Bool
  deriving Repr, DecidableEq

/-- `WebsocketSender::close`: build the close future for this channel. -/
def WebsocketSender.close (_c : WebsocketSender) (code : Nat)
    (reason : String) : CloseFuture :=
  { code := code, reason := reason }

/-- Model of `tokio::task::spawn`'s documented contract: hand the
future to the ambient runtime as a detached task, panicking when
called from outside a running tokio runtime context. -/
def tokioSpawn (ctx : TokioCtx) (f : CloseFuture) :
    Outcome Empty SpawnedTask :=
  if ctx.insideRuntime then .ok { task := f, detached := true, awaited := false }
  else .panic "must be called from the context of a tokio runtime"

/-- `impl Drop for CmdRunner`: build the close future with code `0`
and reason `"closing connection"` and spawn it, without awaiting it. -/
def CmdRunner.drop (ctx : TokioCtx) (r : CmdRunner) :
    Outcome Empty SpawnedTask :=
  tokioSpawn ctx (r.client.close 0 "closing connection")

/-- The close code the drop path uses for a normal closure. -/
def normalClosureCode : Nat := 0

/-- A variant pattern of an enum type `α` with field type `β`:
`extract v = some b` exactly when `v` matches the variant, binding `b`. -/
def VariantPattern (α β : Type) := α → Option β

/-- `expect_variant!($var => $variant, $error_msg)`: unwrap the variant,
panicking with the formatted message on mismatch. -/
def expect_variant (extract : VariantPattern α β) (variantName : String)
    (debugFmt : α → String) (v : α) (error_msg : String) :
    Outcome String β :=
  match extract v with
  | some b => .ok b
  | none =>
      .panic (error_msg ++ ": Expected " ++ variantName ++ " but got " ++ debugFmt v)

/-- `expect_variant!($var => $variant)`: the one-argument arm, which
expands to the two-argument arm with an empty message. -/
def expect_variant1 (extract : VariantPattern α β) (variantName : String)
    (debugFmt : α → String) (v : α) : Outcome String β :=
  expect_variant extract variantName debugFmt v ""

/-- `expect_match!($var => $variant, $error_msg)`: unwrap the variant,
returning an error (`anyhow::bail!`) with the formatted message on
mismatch. -/
def expect_match (extract : VariantPattern α β) (variantName : String)
    (debugFmt : α → String) (v : α) (error_msg : String) :
    Outcome String β :=
  match extract v with
  | some b => .ok b
  | none =>
      .err (error_msg ++ ": Expected " ++ variantName ++ " but got " ++ debugFmt v)

/-- `expect_match!($var => $variant)`: the one-argument arm, which — as
written in the source — expands to `expect_variant!($var => $variant, "")`. -/
def expect_match1 (extract : VariantPattern α β) (variantName : String)
    (debugFmt : α → String) (v : α) : Outcome String β :=
  expect_variant extract variantName debugFmt v ""

/-- Errors of the Setup Registry taxonomy. -/
inductive RegistryError where
  | invalidIndex : RegistryError
  | ioError : RegistryError
  deriving Repr, DecidableEq

/-- Modelled from the spec: the Setup Registry's manifest — the source
file implementing it (`crates/hc/src/save.rs`) is not under `src/` —
is an ordered sequence of setup directory paths, one per line,
insertion order preserved; index 0 is the first line. -/
def Manifest := List String

/-- Modelled from the spec: the manifest's persisted byte content,
"one setup path per line, UTF-8 text, order = index order, no other
metadata". -/
def renderManifest (m : List String) : String :=
  String.intercalate "\n" m

/-- Modelled from the spec: `list()` — an ordered sequence of
`(index, path)` pairs read fresh from the manifest. -/
def listSetups (m : List String) : List (Nat × String) :=
  m.enum

/-- Modelled from the spec: rewrite the manifest omitting the selected
entries — walk the entries with their running index, dropping each
entry whose index is selected. -/
def keepUnselected : List String → Nat → List Nat → List String
  | [], _, _ => []
  | p :: rest, k, indices =>
      if indices.contains k then keepUnselected rest (k + 1) indices
      else p :: keepUnselected rest (k + 1) indices

/-- Modelled from the spec: `remove(indices)` — fails with
`InvalidIndex` if any requested index is out of current bounds,
otherwise rewrites the manifest omitting the selected entries. -/
def removeSetups (m : List String) (indices : List Nat) :
    Except RegistryError (List String) :=
  if indices.any (fun i => m.length ≤ i) then .error .invalidIndex
  else .ok (keepUnselected m 0 indices)

/-- Modelled from the spec: the remove operation together with its
effect on the persisted manifest — on success the manifest file is
fully rewritten to the new content, on failure it is left untouched
(all-or-nothing).  Returns the operation's result and the manifest
content after the operation. -/
def removeAndRewrite (m : List String) (indices : List Nat) :
    Except RegistryError Unit × List String :=
  match removeSetups m indices with
  | .ok m' => (.ok (), m')
  | .error e => (.error e, m)

end Hc

namespace Ribosome

/-- Opaque ribosome handle (`Arc<WasmRibosome>`); `sys_time` never
inspects it. -/
structure WasmRibosome where
  dnaName : String
  deriving Repr, DecidableEq

/-- Opaque host context handle (`Arc<HostContext>`); `sys_time` never
inspects it. -/
structure HostContext where
  zomeName : String
  deriving Repr, DecidableEq

/-- `SysTimeInput`: carries a unit payload. -/
structure SysTimeInput where
  payload : Unit
  deriving Repr, DecidableEq

/-- `SysTimeOutput`: wraps the duration since the Unix epoch, in
nanoseconds. -/
structure SysTimeOutput where
  duration : Int
  deriving Repr, DecidableEq

/-- A point in time as reported by `SystemTime`, in nanoseconds
relative to the Unix epoch (negative values are instants before
the epoch, which `SystemTime` can represent). -/
def UNIX_EPOCH : Int := 0

/-- `SystemTime::duration_since`: the elapsed duration from `earlier`
to `t`, or an error when `t` precedes `earlier`. -/
def durationSince (t earlier : Int) : Except String Int :=
  if earlier ≤ t then .ok (t - earlier) else .error "second time provided was later than self"

/-- The `sys_time` host function: all three arguments are unused;
the current system clock (`now`, an explicit parameter of the
embedding) is compared against the Unix epoch and the elapsed
duration returned, with `.expect("Time went backwards")` aborting
when the clock reads earlier than the epoch. -/
def sys_time (_ribosome : WasmRibosome) (_host_context : HostContext)
    (_input : SysTimeInput) (now : Int) : Hc.Outcome Empty SysTimeOutput :=
  match durationSince now UNIX_EPOCH with
  | .ok d => .ok { duration := d }
  | .error _ => .panic "Time went backwards"

end Ribosome

namespace Hc

/-! Concrete fixtures used by witnesses: a conductor oracle that echoes
each request's payload back, and environments in which both phases
succeed, the connect phase fails, or the launch phase fails. -/

/-- A conductor oracle answering every request with a response carrying
the same payload. -/
def echoClient : WebsocketSender :=
  { request := fun req => .ok { payload := req.payload } }

/-- A `CmdRunner` already connected to `echoClient`. -/
def echoRunner : CmdRunner := { client := echoClient }

/-- A conductor oracle that fails every request. -/
def failingClient : WebsocketSender :=
  { request := fun _ => .error { msg := "connection reset" } }

/-- An environment in which the launch and the connect both succeed. -/
def envAllOk : Env :=
  { get_admin_api := fun _ => .ok echoClient,
    run_async := fun _ _ _ => .ok (4321, { pid := 7 }) }

/-- An environment in which connecting to any admin port fails. -/
def envConnFail : Env :=
  { get_admin_api := fun _ => .error { msg := "connection refused" },
    run_async := fun _ _ _ => .ok (4321, { pid := 7 }) }

/-- An environment in which spawning the conductor binary fails. -/
def envLaunchFail : Env :=
  { get_admin_api := fun _ => .ok echoClient,
    run_async := fun _ _ _ => .error { msg := "no such file or directory" } }

/-- A sample admin response enum for exercising the variant-unwrapping
macros: either a list of cells or an error report. -/
inductive SampleResponse where
  | cellsListed (cells : List String) : SampleResponse
  | errorReport (msg : String) : SampleResponse
  deriving Repr, DecidableEq

/-- The variant pattern `SampleResponse::CellsListed`. -/
def cellsListedPattern : VariantPattern SampleResponse (List String) :=
  fun v => match v with
  | .cellsListed cells => some cells
  | _ => none

/-- A debug formatter for `SampleResponse` (the `{:?}` argument of the
macros' messages). -/
def sampleDebugFmt : SampleResponse → String
  | .cellsListed cells => "CellsListed(" ++ String.intercalate ", " cells ++ ")"
  | .errorReport msg => "ErrorReport(" ++ msg ++ ")"

end Hc

/-- C1: `CmdRunner::try_new` returns the connect failure as an explicit
error result; `CmdRunner::new` panics on that same failure; and the
internal composition paths `from_setup` / `from_setup_with_bin_path`
use the fallible form — `from_setup` delegates to
`from_setup_with_bin_path`, which can never panic. -/
theorem C1_constructor_discipline (env : Hc.Env) (port : Nat) :
    (∀ e, env.get_admin_api port = .error e →
      Hc.CmdRunner.try_new env port = .error e ∧
      Hc.CmdRunner.new env port =
        .panic "Failed to create CmdRunner because admin port failed to connect") ∧
    (∀ bin setup msg,
      Hc.CmdRunner.from_setup_with_bin_path env bin setup ≠ .panic msg) ∧
    (∀ setup, Hc.CmdRunner.from_setup env setup =
      Hc.CmdRunner.from_setup_with_bin_path env Hc.HOLOCHAIN_PATH setup) := by
  refine ⟨fun e he => ?_, fun bin setup msg => ?_, fun setup => rfl⟩
  · constructor
    · simp [Hc.CmdRunner.try_new, he]
    · simp [Hc.CmdRunner.new, Hc.CmdRunner.try_new, he]
  · unfold Hc.CmdRunner.from_setup_with_bin_path
    cases hr : env.run_async bin setup none with
    | error e => simp
    | ok conductor =>
      cases hc : Hc.CmdRunner.try_new env conductor.1 with
      | error e => simp [hc]
      | ok cmd => simp [hc]

/-- C1 witness: in the concrete environment whose connect always fails,
`try_new` reports the error, `new` panics, and the composition paths
do not panic. -/
theorem C1_constructor_discipline_witness :
    Hc.CmdRunner.try_new Hc.envConnFail 9000 = .error { msg := "connection refused" } ∧
    Hc.CmdRunner.new Hc.envConnFail 9000 =
      .panic "Failed to create CmdRunner because admin port failed to connect" ∧
    (∀ msg, Hc.CmdRunner.from_setup_with_bin_path Hc.envConnFail "holochain" "/tmp/hc-setup" ≠
      .panic msg) := by
  have h := C1_constructor_discipline Hc.envConnFail 9000
  exact ⟨(h.1 { msg := "connection refused" } rfl).1,
         (h.1 { msg := "connection refused" } rfl).2,
         fun msg => h.2.1 "holochain" "/tmp/hc-setup" msg⟩

/-- C2: dropping a `CmdRunner` initiates a close of its control channel
with the normal-closure code and does not await its completion: the
drop path spawns the close future with `awaited = false` and returns. -/
theorem C2_drop_closes_fire_and_forget (ctx : Hc.TokioCtx) (r : Hc.CmdRunner)
    (h : ctx.insideRuntime = true) :
    Hc.CmdRunner.drop ctx r =
      .ok { task := { code := Hc.normalClosureCode, reason := "closing connection" },
            detached := true, awaited := false } := by
  simp [Hc.CmdRunner.drop, Hc.tokioSpawn, h, Hc.WebsocketSender.close,
    Hc.normalClosureCode]

/-- C2 witness: dropping the concrete echo runner inside a runtime
spawns the un-awaited normal close. -/
theorem C2_drop_closes_fire_and_forget_witness :
    Hc.CmdRunner.drop { insideRuntime := true } Hc.echoRunner =
      .ok { task := { code := Hc.normalClosureCode, reason := "closing connection" },
            detached := true, awaited := false } :=
  C2_drop_closes_fire_and_forget { insideRuntime := true } Hc.echoRunner rfl

/-- C3: `CmdRunner::command` forwards the request to the connection
unmodified and returns the connection's correlated response (or its
failure) unmodified; on the wire, exactly one request is written and,
on success, exactly its one correlated response is read. -/
theorem C3_command_one_request_one_response (r : Hc.CmdRunner)
    (cmd : Hc.AdminRequest) :
    Hc.CmdRunner.command r cmd = r.client.request cmd ∧
    (∀ tr resp, r.client.request cmd = .ok resp →
      Hc.CmdRunner.commandT r tr cmd =
        (.ok resp, tr ++ [.sent cmd, .received resp])) ∧
    (∀ tr e, r.client.request cmd = .error e →
      Hc.CmdRunner.commandT r tr cmd = (.error e, tr ++ [.sent cmd])) := by
  refine ⟨?_, fun tr resp h => ?_, fun tr e h => ?_⟩
  · unfold Hc.CmdRunner.command
    cases r.client.request cmd <;> rfl
  · simp [Hc.CmdRunner.commandT, h]
  · simp [Hc.CmdRunner.commandT, h]

/-- C3 witness: one concrete request through the echo runner yields its
one correlated response, and through the failing client the explicit
failure. -/
theorem C3_command_one_request_one_response_witness :
    Hc.CmdRunner.command Hc.echoRunner { payload := "list-cells" } =
      .ok { payload := "list-cells" } ∧
    Hc.CmdRunner.commandT Hc.echoRunner [] { payload := "list-cells" } =
      (.ok { payload := "list-cells" },
        [.sent { payload := "list-cells" },
         .received { payload := "list-cells" }]) ∧
    Hc.CmdRunner.commandT { client := Hc.failingClient } [] { payload := "list-cells" } =
      (.error { msg := "connection reset" }, [.sent { payload := "list-cells" }]) := by
  refine ⟨?_, ?_, ?_⟩
  · exact (C3_command_one_request_one_response Hc.echoRunner { payload := "list-cells" }).1
  · exact (C3_command_one_request_one_response Hc.echoRunner
      { payload := "list-cells" }).2.1 [] { payload := "list-cells" } rfl
  · exact (C3_command_one_request_one_response { client := Hc.failingClient }
      { payload := "list-cells" }).2.2 [] { msg := "connection reset" } rfl

/-- C4: evaluation at a mismatching value. The two-argument
`expect_match!` does yield a recoverable error, but the one-argument
`expect_match!` — which the source expands to `expect_variant!` —
panics, exactly as `expect_variant!` itself does, contradicting the
macro's own documentation ("return an error if it doesn't"). -/
theorem C4_one_arg_expect_match_panics :
    Hc.expect_match Hc.cellsListedPattern "CellsListed" Hc.sampleDebugFmt
      (Hc.SampleResponse.errorReport "boom") "test" =
      .err "test: Expected CellsListed but got ErrorReport(boom)" ∧
    Hc.expect_match1 Hc.cellsListedPattern "CellsListed" Hc.sampleDebugFmt
      (Hc.SampleResponse.errorReport "boom") =
      .panic ": Expected CellsListed but got ErrorReport(boom)" ∧
    Hc.expect_variant Hc.cellsListedPattern "CellsListed" Hc.sampleDebugFmt
      (Hc.SampleResponse.errorReport "boom") "test" =
      .panic "test: Expected CellsListed but got ErrorReport(boom)" ∧
    Hc.expect_variant1 Hc.cellsListedPattern "CellsListed" Hc.sampleDebugFmt
      (Hc.SampleResponse.errorReport "boom") =
      .panic ": Expected CellsListed but got ErrorReport(boom)" := by
  refine ⟨rfl, rfl, rfl, rfl⟩

/-- C5: `from_setup_with_bin_path` launches the conductor first, then
connects a new admin client to the port the launch resolved, and on
success returns both the client and the spawned child handle; a
failure in either phase is returned as an explicit error. -/
theorem C5_from_setup_launch_then_connect (env : Hc.Env)
    (bin setup : String) :
    (∀ port child client,
      env.run_async bin setup none = .ok (port, child) →
      env.get_admin_api port = .ok client →
      Hc.CmdRunner.from_setup_with_bin_path env bin setup =
        .ok ({ client := client }, child)) ∧
    (∀ e, env.run_async bin setup none = .error e →
      Hc.CmdRunner.from_setup_with_bin_path env bin setup = .err (.launch e)) ∧
    (∀ port child e,
      env.run_async bin setup none = .ok (port, child) →
      env.get_admin_api port = .error e →
      Hc.CmdRunner.from_setup_with_bin_path env bin setup = .err (.io e)) := by
  refine ⟨fun port child client hrun hconn => ?_, fun e hrun => ?_,
    fun port child e hrun hconn => ?_⟩
  · simp [Hc.CmdRunner.from_setup_with_bin_path, hrun,
      Hc.CmdRunner.try_new, hconn]
  · simp [Hc.CmdRunner.from_setup_with_bin_path, hrun]
  · simp [Hc.CmdRunner.from_setup_with_bin_path, hrun,
      Hc.CmdRunner.try_new, hconn]

/-- C5 witness: in the all-succeeding environment the client connected
to the resolved port and the child handle are both returned; in the
failing environments the respective phase's error is returned. -/
theorem C5_from_setup_launch_then_connect_witness :
    Hc.CmdRunner.from_setup_with_bin_path Hc.envAllOk "holochain" "/tmp/hc-setup" =
      .ok ({ client := Hc.echoClient }, { pid := 7 }) ∧
    Hc.CmdRunner.from_setup_with_bin_path Hc.envLaunchFail "holochain" "/tmp/hc-setup" =
      .err (.launch { msg := "no such file or directory" }) ∧
    Hc.CmdRunner.from_setup_with_bin_path Hc.envConnFail "holochain" "/tmp/hc-setup" =
      .err (.io { msg := "connection refused" }) := by
  refine ⟨?_, ?_, ?_⟩
  · exact (C5_from_setup_launch_then_connect Hc.envAllOk "holochain"
      "/tmp/hc-setup").1 4321 { pid := 7 } Hc.echoClient rfl rfl
  · exact (C5_from_setup_launch_then_connect Hc.envLaunchFail "holochain"
      "/tmp/hc-setup").2.1 { msg := "no such file or directory" } rfl
  · exact (C5_from_setup_launch_then_connect Hc.envConnFail "holochain"
      "/tmp/hc-setup").2.2 4321 { pid := 7 } { msg := "connection refused" } rfl rfl

/-- C8: two requests issued sequentially on one connection are
serialized, never pipelined: the wire trace of `A` then `B` is
exactly send `A`, receive `A`'s response, send `B`, receive `B`'s
response — `B`'s response is delivered only after `A`'s, with no
interleaving. -/
theorem C8_requests_serialized (r : Hc.CmdRunner) (tr : List Hc.WireEvent)
    (a b : Hc.AdminRequest) (ra rb : Hc.AdminResponse)
    (ha : r.client.request a = .ok ra) (hb : r.client.request b = .ok rb) :
    (Hc.CmdRunner.commandT r tr a).1 = .ok ra ∧
    Hc.CmdRunner.commandT r (Hc.CmdRunner.commandT r tr a).2 b =
      (.ok rb, tr ++ [.sent a, .received ra, .sent b, .received rb]) := by
  constructor
  · simp [Hc.CmdRunner.commandT, ha]
  · simp [Hc.CmdRunner.commandT, ha, hb]

/-- C8 witness: two concrete sequential requests through the echo
runner produce the strictly ordered, non-interleaved trace. -/
theorem C8_requests_serialized_witness :
    (Hc.CmdRunner.commandT Hc.echoRunner [] { payload := "list-dnas" }).1 =
      .ok { payload := "list-dnas" } ∧
    Hc.CmdRunner.commandT Hc.echoRunner
      (Hc.CmdRunner.commandT Hc.echoRunner [] { payload := "list-dnas" }).2
      { payload := "list-cells" } =
      (.ok { payload := "list-cells" },
        [.sent { payload := "list-dnas" }, .received { payload := "list-dnas" },
         .sent { payload := "list-cells" }, .received { payload := "list-cells" }]) :=
  C8_requests_serialized Hc.echoRunner [] { payload := "list-dnas" }
    { payload := "list-cells" } { payload := "list-dnas" }
    { payload := "list-cells" } rfl rfl

/-- C9: `sys_time` ignores all three of its arguments — its result
depends only on the clock — returning the duration between the Unix
epoch and now when the clock does not predate the epoch, and panicking
with "Time went backwards" when it does. -/
theorem C9_sys_time_clock_only (r r' : Ribosome.WasmRibosome)
    (h h' : Ribosome.HostContext) (i i' : Ribosome.SysTimeInput) (now : Int) :
    Ribosome.sys_time r h i now = Ribosome.sys_time r' h' i' now ∧
    (0 ≤ now → Ribosome.sys_time r h i now = .ok { duration := now }) ∧
    (now < 0 → Ribosome.sys_time r h i now = .panic "Time went backwards") := by
  refine ⟨rfl, fun hle => ?_, fun hlt => ?_⟩
  · simp [Ribosome.sys_time, Ribosome.durationSince, Ribosome.UNIX_EPOCH, hle]
  · simp [Ribosome.sys_time, Ribosome.durationSince, Ribosome.UNIX_EPOCH,
      Int.not_le.mpr hlt]

/-- C9 witness: at two distinct argument triples and clock 5 the
results agree and equal the epoch-relative duration; at clock -3 the
function panics. -/
theorem C9_sys_time_clock_only_witness :
    Ribosome.sys_time { dnaName := "a" } { zomeName := "x" } { payload := () } 5 =
      Ribosome.sys_time { dnaName := "b" } { zomeName := "y" } { payload := () } 5 ∧
    Ribosome.sys_time { dnaName := "a" } { zomeName := "x" } { payload := () } 5 =
      .ok { duration := 5 } ∧
    Ribosome.sys_time { dnaName := "a" } { zomeName := "x" } { payload := () } (-3) =
      .panic "Time went backwards" := by
  refine ⟨?_, ?_, ?_⟩
  · exact (C9_sys_time_clock_only { dnaName := "a" } { dnaName := "b" }
      { zomeName := "x" } { zomeName := "y" } { payload := () } { payload := () } 5).1
  · exact (C9_sys_time_clock_only { dnaName := "a" } { dnaName := "b" }
      { zomeName := "x" } { zomeName := "y" } { payload := () } { payload := () } 5).2.1
      (by decide)
  · exact (C9_sys_time_clock_only { dnaName := "a" } { dnaName := "b" }
      { zomeName := "x" } { zomeName := "y" } { payload := () } { payload := () }
      (-3)).2.2 (by decide)

/-- C10: dropping a `CmdRunner` spawns the close future — close code 0,
reason "closing connection" — as a detached, un-awaited task on the
ambient tokio runtime; outside a running runtime context the drop
panics instead of closing the connection. -/
theorem C10_drop_detached_or_panics (ctx : Hc.TokioCtx) (r : Hc.CmdRunner) :
    (ctx.insideRuntime = true →
      Hc.CmdRunner.drop ctx r =
        .ok { task := { code := 0, reason := "closing connection" },
              detached := true, awaited := false }) ∧
    (ctx.insideRuntime = false →
      Hc.CmdRunner.drop ctx r =
        .panic "must be called from the context of a tokio runtime") := by
  constructor
  · intro h
    simp [Hc.CmdRunner.drop, Hc.tokioSpawn, h, Hc.WebsocketSender.close]
  · intro h
    simp [Hc.CmdRunner.drop, Hc.tokioSpawn, h, Hc.WebsocketSender.close]

/-- C10 witness: the concrete echo runner's drop spawns the detached
close task inside a runtime and panics outside one. -/
theorem C10_drop_detached_or_panics_witness :
    Hc.CmdRunner.drop { insideRuntime := true } Hc.echoRunner =
      .ok { task := { code := 0, reason := "closing connection" },
            detached := true, awaited := false } ∧
    Hc.CmdRunner.drop { insideRuntime := false } Hc.echoRunner =
      .panic "must be called from the context of a tokio runtime" :=
  ⟨(C10_drop_detached_or_panics { insideRuntime := true } Hc.echoRunner).1 rfl,
   (C10_drop_detached_or_panics { insideRuntime := false } Hc.echoRunner).2 rfl⟩

namespace Hc

theorem keepUnselected_of_forall_lt (m : List String) (k : Nat)
    (sel : List Nat) (h : ∀ j ∈ sel, j < k) :
    keepUnselected m k sel = m := by
  induction m generalizing k with
  | nil => rfl
  | cons p rest ih =>
    have hk : k ∉ sel := fun hm => absurd (h k hm) (lt_irrefl k)
    simp only [keepUnselected, List.contains, List.elem_eq_mem, hk,
      decide_False, Bool.false_eq_true, if_false, List.cons.injEq, true_and]
    exact ih (k + 1) (fun j hj => Nat.lt_succ_of_lt (h j hj))

theorem keepUnselected_singleton (m : List String) (k i : Nat) :
    keepUnselected m k [k + i] = m.eraseIdx i := by
  induction m generalizing k i with
  | nil => simp [keepUnselected, List.eraseIdx]
  | cons p rest ih =>
    cases i with
    | zero =>
      simp only [keepUnselected, Nat.add_zero, List.contains, List.elem_eq_mem,
        List.mem_singleton, decide_True, if_true, List.eraseIdx]
      exact keepUnselected_of_forall_lt rest (k + 1) [k]
        (by simp [Nat.lt_succ_self])
    | succ n =>
      have hk : k ∉ ([k + (n + 1)] : List Nat) := by simp
      simp only [keepUnselected, List.contains, List.elem_eq_mem, hk,
        decide_False, Bool.false_eq_true, if_false, List.eraseIdx,
        List.cons.injEq, true_and]
      have harith : k + (n + 1) = (k + 1) + n := by omega
      rw [harith]
      exact ih (k + 1) n

theorem removeSetups_singleton_eq_eraseIdx (m : List String) (i : Nat)
    (h : i < m.length) :
    removeSetups m [i] = .ok (m.eraseIdx i) := by
  unfold removeSetups
  rw [if_neg]
  · have := keepUnselected_singleton m 0 i
    simpa using this
  · simp
    omega

end Hc

/-- C6: removing a set of indices of which at least one is out of the
registry's current bounds fails with `InvalidIndex` and leaves the
manifest byte-for-byte unchanged — no subset of the valid indices is
removed. -/
theorem C6_remove_all_or_nothing (m : List String) (indices : List Nat)
    (h : ∃ i ∈ indices, m.length ≤ i) :
    Hc.removeAndRewrite m indices = (.error .invalidIndex, m) ∧
    Hc.renderManifest (Hc.removeAndRewrite m indices).2 =
      Hc.renderManifest m := by
  obtain ⟨i, hi, hle⟩ := h
  have hrem : Hc.removeSetups m indices = .error .invalidIndex := by
    unfold Hc.removeSetups
    rw [if_pos]
    exact List.any_eq_true.mpr ⟨i, hi, by simpa using hle⟩
  have hrw : Hc.removeAndRewrite m indices = (.error .invalidIndex, m) := by
    unfold Hc.removeAndRewrite
    rw [hrem]
  exact ⟨hrw, by rw [hrw]⟩

/-- C6 witness: removing indices `{0, 5}` from the two-entry registry
`["a", "b"]` fails with `InvalidIndex` — index 0 is valid but is not
removed — and the manifest content is unchanged. -/
theorem C6_remove_all_or_nothing_witness :
    Hc.removeAndRewrite ["a", "b"] [0, 5] = (.error .invalidIndex, ["a", "b"]) ∧
    Hc.renderManifest (Hc.removeAndRewrite ["a", "b"] [0, 5]).2 =
      Hc.renderManifest ["a", "b"] :=
  C6_remove_all_or_nothing ["a", "b"] [0, 5] (by decide)

/-- C7: removing a valid index `i` from a registry of size `n` shifts
every entry previously listed at an index `j > i` down to index `j-1`
on the next `list`, while entries below `i` keep their indices and
paths. -/
theorem C7_remove_shifts_indices (m : List String) (i : Nat)
    (h : i < m.length) :
    ∃ m', Hc.removeSetups m [i] = .ok m' ∧
      m'.length = m.length - 1 ∧
      (∀ j, j < i →
        (Hc.listSetups m')[j]? = (m[j]?).map fun p => (j, p)) ∧
      (∀ j, i < j →
        (Hc.listSetups m')[j - 1]? = (m[j]?).map fun p => (j - 1, p)) := by
  refine ⟨m.eraseIdx i, Hc.removeSetups_singleton_eq_eraseIdx m i h, ?_, ?_, ?_⟩
  · rw [List.length_eraseIdx]
    simp [h]
  · intro j hj
    unfold Hc.listSetups
    simp only [List.enum, List.getElem?_enumFrom, Nat.zero_add]
    rw [List.getElem?_eraseIdx_of_lt _ _ _ hj]
  · intro j hj
    unfold Hc.listSetups
    simp only [List.enum, List.getElem?_enumFrom, Nat.zero_add]
    rw [List.getElem?_eraseIdx_of_ge _ _ _ (by omega)]
    have harith : j - 1 + 1 = j := by omega
    rw [harith]

/-- C7 witness: removing index 1 from `["a", "b", "c"]` yields a
registry listing `"a"` still at index 0 and `"c"` shifted from index 2
to index 1. -/
theorem C7_remove_shifts_indices_witness :
    (∃ m', Hc.removeSetups ["a", "b", "c"] [1] = .ok m' ∧
      m'.length = (["a", "b", "c"] : List String).length - 1 ∧
      (∀ j, j < 1 →
        (Hc.listSetups m')[j]? =
          ((["a", "b", "c"] : List String)[j]?).map fun p => (j, p)) ∧
      (∀ j, 1 < j →
        (Hc.listSetups m')[j - 1]? =
          ((["a", "b", "c"] : List String)[j]?).map fun p => (j - 1, p))) ∧
    Hc.removeSetups ["a", "b", "c"] [1] = .ok ["a", "c"] ∧
    Hc.listSetups ["a", "c"] = [(0, "a"), (1, "c")] :=
  ⟨C7_remove_shifts_indices ["a", "b", "c"] 1 (by decide), rfl, rfl⟩
